import Mathlib

/-!
Verification of the guild-configuration cache-and-store ("ConfigStore") of
the futaba repository, a shallow embedding of
`futaba/sql/models/welcome.py` (`WelcomeStorage`, `WelcomeModel`).

Modelling conventions:
* A discord guild carries an id and its list of text channels; a channel
  carries its id and the id of its owning guild.  discord.py entities
  compare (`__eq__`/`__hash__`) by id, so the Python dict
  `WelcomeModel.cache`, keyed by guild objects, is a finite map keyed by
  the guild id; it is embedded as an association list whose lookups,
  updates and pops match entries by `Guild.id`.
* The SQL table `welcome` is a list of rows with `guild_id` as primary
  key.  `sql.execute` of INSERT / DELETE / UPDATE / SELECT statements is
  embedded by pure functions on the row list.  An INSERT whose key is
  already present violates the primary-key constraint and raises
  (`Err.duplicateScope`, the spec's `DuplicateScopeError`).  A SELECT
  reports the matching rows (`rowcount` = their number, the semantics
  the source relies on at `if not result.rowcount`).
* Python methods mutate `self` and return a value, and an exception
  propagates leaving the mutations made so far in place; each method is
  therefore embedded as `WelcomeModel → ... → WelcomeModel × Except Err ρ`
  where the returned state is the state of `self` when the method
  returns or raises.  A method with no `return` statement returns
  Python's `None`, embedded as `Except.ok none` at type
  `Option WelcomeStorage`.
* A possible failure of a backing-store call (the spec's `StorageError`)
  is injected through the Boolean `fail` argument: when it is true the
  first `sql.execute` of the method raises `Err.storageError` instead of
  executing.  `fail = false` is the normal, storage-healthy run.
* Every executed SQL statement is recorded in the ghost `trace` field so
  that statements ("performs exactly one backing-store insert") about
  the statements issued can be expressed.
-/

deriving instance DecidableEq for Except

/-- A discord text channel: its id and the id of the guild owning it
(`channel.guild` in the source; discord guilds compare by id). -/
structure Channel where
  id : Nat
  guild_id : Nat
  name : String
deriving DecidableEq

/-- A discord guild: its id, name and list of text channels. -/
structure Guild where
  id : Nat
  name : String
  text_channels : List Channel
deriving DecidableEq

/-- Embedding of `discord.utils.get(channels, id=cid)`: first channel whose id equals
`cid`; with `cid = None` no channel matches (ids are integers). -/
def discordUtilsGet (channels : List Channel) (cid : Option Nat) : Option Channel :=
  match cid with
  | none => none
  | some i => channels.find? (fun c => c.id = i)

/-- The in-memory record `WelcomeStorage` of `welcome.py`. -/
structure WelcomeStorage where
  guild : Guild
  welcome_message : Option String
  goodbye_message : Option String
  agreed_message : Option String
  delete_on_agree : Bool
  welcome_channel : Option Channel
deriving DecidableEq

/-- Constructor `WelcomeStorage.__init__`: stores the five scalar fields and resolves
`welcome_channel` as `discord.utils.get(guild.text_channels, id=welcome_channel_id)`. -/
def WelcomeStorage.init (guild : Guild)
    (welcome_message goodbye_message agreed_message : Option String)
    (delete_on_agree : Bool) (welcome_channel_id : Option Nat) : WelcomeStorage :=
  { guild := guild
    welcome_message := welcome_message
    goodbye_message := goodbye_message
    agreed_message := agreed_message
    delete_on_agree := delete_on_agree
    welcome_channel := discordUtilsGet guild.text_channels welcome_channel_id }

/-- Property `WelcomeStorage.welcome_channel_id`: `getattr(self.welcome_channel, 'id', None)`. -/
def WelcomeStorage.welcome_channel_id (s : WelcomeStorage) : Option Nat :=
  Option.map Channel.id s.welcome_channel

/-- One row of the SQL table `welcome` (primary key `guild_id`). -/
structure Row where
  guild_id : Nat
  welcome_message : Option String
  goodbye_message : Option String
  agreed_message : Option String
  delete_on_agree : Bool
  welcome_channel_id : Option Nat
deriving DecidableEq

/-- Errors a `WelcomeModel` method can raise.  `storageError` is an
injected backing-store failure (the spec's `StorageError`);
`duplicateScope` is the primary-key violation of an INSERT on an
existing `guild_id` (the spec's `DuplicateScopeError`); `keyError` is
Python's `KeyError` from `self.cache[guild]` on a missing key;
`invalidReference` is the failure of `assert guild == channel.guild`
(the spec's `InvalidReferenceError`). -/
inductive Err where
  | storageError
  | duplicateScope
  | keyError
  | invalidReference
deriving DecidableEq

/-- A backing-store statement, recorded in the ghost trace. -/
inductive Eff where
  | insert (row : Row)
  | delete (gid : Nat)
  | update (gid : Nat) (field : String)
  | selectW (gid : Nat)
deriving DecidableEq

def Eff.isInsert : Eff → Bool
  | Eff.insert _ => true
  | _ => false

/-- Number of INSERT statements in a trace. -/
def countInserts (tr : List Eff) : Nat :=
  (tr.filter Eff.isInsert).length

/-- Lookup in the cache dict: first entry whose key has the given guild's
id (discord objects hash and compare by id). -/
def dictGet (m : List (Guild × WelcomeStorage)) (g : Guild) : Option WelcomeStorage :=
  match m with
  | [] => none
  | p :: rest => if p.1.id = g.id then some p.2 else dictGet rest g

/-- Assignment `cache[guild] = v`: replace the value of the existing entry with the
same id (Python keeps the original key object), else append a new entry. -/
def dictSet (m : List (Guild × WelcomeStorage)) (g : Guild) (v : WelcomeStorage) :
    List (Guild × WelcomeStorage) :=
  match m with
  | [] => [(g, v)]
  | p :: rest => if p.1.id = g.id then (p.1, v) :: rest else p :: dictSet rest g v

/-- Eviction `cache.pop(guild, None)`: drop the entry with the guild's id, if any
(dict keys are unique, so dropping every match is the same operation). -/
def dictPop (m : List (Guild × WelcomeStorage)) (g : Guild) :
    List (Guild × WelcomeStorage) :=
  match m with
  | [] => []
  | p :: rest => if p.1.id = g.id then dictPop rest g else p :: dictPop rest g

/-- First row with the given `guild_id` (primary-key lookup). -/
def dbFind (db : List Row) (gid : Nat) : Option Row :=
  match db with
  | [] => none
  | r :: rest => if r.guild_id = gid then some r else dbFind rest gid

/-- Statement `DELETE FROM welcome WHERE guild_id = gid`. -/
def dbDelete (db : List Row) (gid : Nat) : List Row :=
  match db with
  | [] => []
  | r :: rest => if r.guild_id = gid then dbDelete rest gid else r :: dbDelete rest gid

/-- Statement `UPDATE welcome SET ... WHERE guild_id = gid`, with `f` the per-row
effect of the SET clause. -/
def dbUpdateWith (db : List Row) (gid : Nat) (f : Row → Row) : List Row :=
  match db with
  | [] => []
  | r :: rest => (if r.guild_id = gid then f r else r) :: dbUpdateWith rest gid f

/-- Statement `SELECT ... FROM welcome WHERE guild_id = gid`: the matching rows. -/
def dbSelect (db : List Row) (gid : Nat) : List Row :=
  match db with
  | [] => []
  | r :: rest => if r.guild_id = gid then r :: dbSelect rest gid else dbSelect rest gid

/-- The state of a `WelcomeModel` object: the table contents, the cache
dict, and the ghost trace of executed statements. -/
structure WelcomeModel where
  db : List Row
  cache : List (Guild × WelcomeStorage)
  trace : List Eff
deriving DecidableEq

/-- Method `WelcomeModel.add_welcome`: builds a default `WelcomeStorage(guild)`,
INSERTs a row for it (note the source passes `storage.welcome_channel`
— not `storage.welcome_message` — as the `welcome_message` column value,
and omits the `agreed_message` column, which therefore stores NULL; a
fresh storage has `welcome_channel = None`, so the column stores NULL
either way), then caches the storage.  The INSERT raises on an existing
`guild_id` (primary-key constraint), leaving cache and table unchanged.
The method has no `return` statement: it returns `None`. -/
def WelcomeModel.add_welcome (fail : Bool) (m : WelcomeModel) (guild : Guild) :
    WelcomeModel × Except Err (Option WelcomeStorage) :=
  let storage := WelcomeStorage.init guild none none none true none
  let row : Row :=
    { guild_id := guild.id
      welcome_message := Option.map Channel.name storage.welcome_channel
      goodbye_message := storage.goodbye_message
      agreed_message := none
      delete_on_agree := storage.delete_on_agree
      welcome_channel_id := storage.welcome_channel_id }
  if fail then (m, Except.error Err.storageError)
  else
    match dbFind m.db row.guild_id with
    | some _ => (m, Except.error Err.duplicateScope)
    | none =>
        ({ db := m.db ++ [row]
           cache := dictSet m.cache guild storage
           trace := m.trace ++ [Eff.insert row] }, Except.ok none)

/-- Method `WelcomeModel.del_welcome`: DELETE the guild's row, then
`cache.pop(guild, None)`. -/
def WelcomeModel.del_welcome (fail : Bool) (m : WelcomeModel) (guild : Guild) :
    WelcomeModel × Except Err Unit :=
  if fail then (m, Except.error Err.storageError)
  else
    ({ db := dbDelete m.db guild.id
       cache := dictPop m.cache guild
       trace := m.trace ++ [Eff.delete guild.id] }, Except.ok ())

/-- Method `WelcomeModel.get_welcome`: return the cached record if present; on a
miss SELECT the guild's row; when no row matches, call `add_welcome` and
return `self.cache[guild]`; otherwise build a `WelcomeStorage` from the
row, cache it and return it. -/
def WelcomeModel.get_welcome (fail : Bool) (m : WelcomeModel) (guild : Guild) :
    WelcomeModel × Except Err WelcomeStorage :=
  match dictGet m.cache guild with
  | some storage => (m, Except.ok storage)
  | none =>
    if fail then (m, Except.error Err.storageError)
    else
      let m1 : WelcomeModel := { m with trace := m.trace ++ [Eff.selectW guild.id] }
      match dbSelect m.db guild.id with
      | [] =>
          match WelcomeModel.add_welcome fail m1 guild with
          | (m2, Except.error e) => (m2, Except.error e)
          | (m2, Except.ok _) =>
              match dictGet m2.cache guild with
              | some w => (m2, Except.ok w)
              | none => (m2, Except.error Err.keyError)
      | r :: _ =>
          let welcome := WelcomeStorage.init guild r.welcome_message r.goodbye_message
              r.agreed_message r.delete_on_agree r.welcome_channel_id
          ({ m1 with cache := dictSet m1.cache guild welcome }, Except.ok welcome)

/-- Common shape of the five field setters: UPDATE the single column of
the guild's row, then `self.cache[guild].field = value` — a dict lookup
(raising `KeyError` on a missing key, after the UPDATE already ran)
followed by an attribute assignment on the cached record. -/
def WelcomeModel.setGeneric (rowUpd : Row → Row) (stUpd : WelcomeStorage → WelcomeStorage)
    (field : String) (fail : Bool) (m : WelcomeModel) (guild : Guild) :
    WelcomeModel × Except Err Unit :=
  if fail then (m, Except.error Err.storageError)
  else
    match dictGet m.cache guild with
    | none =>
        ({ m with
            db := dbUpdateWith m.db guild.id rowUpd
            trace := m.trace ++ [Eff.update guild.id field] },
         Except.error Err.keyError)
    | some w =>
        ({ db := dbUpdateWith m.db guild.id rowUpd
           cache := dictSet m.cache guild (stUpd w)
           trace := m.trace ++ [Eff.update guild.id field] },
         Except.ok ())

/-- Setter `WelcomeModel.set_welcome_message`. -/
def WelcomeModel.set_welcome_message (fail : Bool) (m : WelcomeModel) (guild : Guild)
    (welcome_message : Option String) : WelcomeModel × Except Err Unit :=
  WelcomeModel.setGeneric (fun r => { r with welcome_message := welcome_message })
    (fun w => { w with welcome_message := welcome_message })
    "welcome_message" fail m guild

/-- Setter `WelcomeModel.set_goodbye_message`. -/
def WelcomeModel.set_goodbye_message (fail : Bool) (m : WelcomeModel) (guild : Guild)
    (goodbye_message : Option String) : WelcomeModel × Except Err Unit :=
  WelcomeModel.setGeneric (fun r => { r with goodbye_message := goodbye_message })
    (fun w => { w with goodbye_message := goodbye_message })
    "goodbye_message" fail m guild

/-- Setter `WelcomeModel.set_agreed_message`. -/
def WelcomeModel.set_agreed_message (fail : Bool) (m : WelcomeModel) (guild : Guild)
    (agreed_message : Option String) : WelcomeModel × Except Err Unit :=
  WelcomeModel.setGeneric (fun r => { r with agreed_message := agreed_message })
    (fun w => { w with agreed_message := agreed_message })
    "agreed_message" fail m guild

/-- Setter `WelcomeModel.set_delete_on_agree`. -/
def WelcomeModel.set_delete_on_agree (fail : Bool) (m : WelcomeModel) (guild : Guild)
    (value : Bool) : WelcomeModel × Except Err Unit :=
  WelcomeModel.setGeneric (fun r => { r with delete_on_agree := value })
    (fun w => { w with delete_on_agree := value })
    "delete_on_agree" fail m guild

/-- Setter `WelcomeModel.set_welcome_channel`: first
`assert guild == channel.guild` when a channel is given (discord guilds
compare by id), then UPDATE the `welcome_channel_id` column to
`getattr(channel, 'id', None)` and assign `welcome_channel` on the
cached record. -/
def WelcomeModel.set_welcome_channel (fail : Bool) (m : WelcomeModel) (guild : Guild)
    (channel : Option Channel) : WelcomeModel × Except Err Unit :=
  match channel with
  | some c =>
      if c.guild_id = guild.id then
        WelcomeModel.setGeneric
          (fun r => { r with welcome_channel_id := Option.map Channel.id channel })
          (fun w => { w with welcome_channel := channel })
          "welcome_channel_id" fail m guild
      else (m, Except.error Err.invalidReference)
  | none =>
      WelcomeModel.setGeneric
        (fun r => { r with welcome_channel_id := Option.map Channel.id channel })
        (fun w => { w with welcome_channel := channel })
        "welcome_channel_id" fail m guild

/-- The all-default record for a guild: all optional messages `none`,
`delete_on_agree` true, no channel reference. -/
def defaultStorage (g : Guild) : WelcomeStorage :=
  WelcomeStorage.init g none none none true none

/-- The all-default table row for a guild. -/
def defaultRow (g : Guild) : Row :=
  { guild_id := g.id
    welcome_message := none
    goodbye_message := none
    agreed_message := none
    delete_on_agree := true
    welcome_channel_id := none }

/-- Boolean form of the channel-reference precondition checked by
`set_welcome_channel`'s assert: the channel, when given, belongs to the
guild. -/
def chanOk (g : Guild) : Option Channel → Bool
  | none => true
  | some c => c.guild_id == g.id

/-- Concrete guild used for witnesses: one text channel. -/
def g0 : Guild :=
  { id := 1, name := "guild-one", text_channels := [{ id := 10, guild_id := 1, name := "general" }] }

/-- The channel of `g0`. -/
def chan0 : Channel := { id := 10, guild_id := 1, name := "general" }

/-- A channel belonging to a different guild (id 2). -/
def chanOther : Channel := { id := 20, guild_id := 2, name := "other" }

/-- The empty model state: no rows, empty cache, empty trace. -/
def mEmpty : WelcomeModel := { db := [], cache := [], trace := [] }

/-- State after `get_welcome` on the fresh store: `g0` cached with defaults. -/
def mCached : WelcomeModel := (WelcomeModel.get_welcome false mEmpty g0).1

/-- State after `add_welcome g0` on the fresh store. -/
def mG0 : WelcomeModel := (WelcomeModel.add_welcome false mEmpty g0).1

/-- State with a default row for `g0` in the table but an empty cache. -/
def mRowOnly : WelcomeModel := { db := [defaultRow g0], cache := [], trace := [] }


lemma dictGet_dictSet_self (m : List (Guild × WelcomeStorage)) (g : Guild) (v : WelcomeStorage) :
    dictGet (dictSet m g v) g = some v := by
  induction m with
  | nil => simp [dictGet, dictSet]
  | cons p rest ih =>
      by_cases h : p.1.id = g.id
      · simp [dictGet, dictSet, h]
      · simp [dictGet, dictSet, h, ih]

lemma dictGet_dictSet_ne (m : List (Guild × WelcomeStorage)) (g g' : Guild) (v : WelcomeStorage)
    (h : ¬ g'.id = g.id) : dictGet (dictSet m g v) g' = dictGet m g' := by
  induction m with
  | nil =>
      simp [dictGet, dictSet]
      intro hg
      exact absurd hg.symm h
  | cons p rest ih =>
      by_cases hp : p.1.id = g.id
      · have hgg : ¬ g.id = g'.id := fun hc => h hc.symm
        have hp' : ¬ p.1.id = g'.id := by
          rw [hp]
          exact hgg
        simp [dictGet, dictSet, hp, hp', hgg]
      · simp only [dictSet, if_neg hp]
        by_cases hq : p.1.id = g'.id
        · simp [dictGet, hq]
        · simp [dictGet, hq, ih]

lemma dictGet_dictPop_self (m : List (Guild × WelcomeStorage)) (g : Guild) :
    dictGet (dictPop m g) g = none := by
  induction m with
  | nil => simp [dictGet, dictPop]
  | cons p rest ih =>
      by_cases h : p.1.id = g.id
      · simp [dictPop, h, ih]
      · simp [dictGet, dictPop, h, ih]

lemma dictGet_dictPop_ne (m : List (Guild × WelcomeStorage)) (g g' : Guild)
    (h : ¬ g'.id = g.id) : dictGet (dictPop m g) g' = dictGet m g' := by
  induction m with
  | nil => simp [dictGet, dictPop]
  | cons p rest ih =>
      by_cases hp : p.1.id = g.id
      · have hgg : ¬ g.id = g'.id := fun hc => h hc.symm
        have hp' : ¬ p.1.id = g'.id := by
          rw [hp]
          exact hgg
        simp [dictGet, dictPop, hp, hp', hgg, ih]
      · by_cases hq : p.1.id = g'.id
        · simp [dictGet, dictPop, hp, hq, h]
        · simp [dictGet, dictPop, hp, hq, ih]

lemma dictPop_of_none (m : List (Guild × WelcomeStorage)) (g : Guild)
    (h : dictGet m g = none) : dictPop m g = m := by
  induction m with
  | nil => simp [dictPop]
  | cons p rest ih =>
      by_cases hp : p.1.id = g.id
      · simp [dictGet, hp] at h
      · simp only [dictGet, if_neg hp] at h
        simp [dictPop, hp, ih h]

lemma mem_dictSet (m : List (Guild × WelcomeStorage)) (g : Guild) (v : WelcomeStorage)
    (p : Guild × WelcomeStorage) (h : p ∈ dictSet m g v) :
    (p.2 = v ∧ p.1.id = g.id) ∨ p ∈ m := by
  induction m with
  | nil =>
      simp [dictSet] at h
      subst h
      exact Or.inl ⟨rfl, rfl⟩
  | cons q rest ih =>
      by_cases hq : q.1.id = g.id
      · simp only [dictSet, if_pos hq] at h
        rcases List.mem_cons.mp h with h1 | h1
        · subst h1
          exact Or.inl ⟨rfl, hq⟩
        · exact Or.inr (List.mem_cons_of_mem _ h1)
      · simp only [dictSet, if_neg hq] at h
        rcases List.mem_cons.mp h with h1 | h1
        · exact Or.inr (by rw [h1]; exact List.mem_cons_self _ _)
        · rcases ih h1 with h2 | h2
          · exact Or.inl h2
          · exact Or.inr (List.mem_cons_of_mem _ h2)

lemma mem_dictPop (m : List (Guild × WelcomeStorage)) (g : Guild)
    (p : Guild × WelcomeStorage) (h : p ∈ dictPop m g) : p ∈ m := by
  induction m with
  | nil => simp [dictPop] at h
  | cons q rest ih =>
      by_cases hq : q.1.id = g.id
      · simp only [dictPop, if_pos hq] at h
        exact List.mem_cons_of_mem _ (ih h)
      · simp only [dictPop, if_neg hq] at h
        rcases List.mem_cons.mp h with h1 | h1
        · exact h1 ▸ List.mem_cons_self _ _
        · exact List.mem_cons_of_mem _ (ih h1)

lemma dictGet_mem (m : List (Guild × WelcomeStorage)) (g : Guild) (w : WelcomeStorage)
    (h : dictGet m g = some w) : ∃ p, p ∈ m ∧ p.2 = w ∧ p.1.id = g.id := by
  induction m with
  | nil => simp [dictGet] at h
  | cons p rest ih =>
      by_cases hp : p.1.id = g.id
      · simp only [dictGet, if_pos hp, Option.some.injEq] at h
        exact ⟨p, List.mem_cons_self _ _, h, hp⟩
      · simp only [dictGet, if_neg hp] at h
        obtain ⟨q, hq, h2, h3⟩ := ih h
        exact ⟨q, List.mem_cons_of_mem _ hq, h2, h3⟩

lemma dbFind_append_new (db : List Row) (gid : Nat) (r : Row)
    (h : dbFind db gid = none) (hr : r.guild_id = gid) :
    dbFind (db ++ [r]) gid = some r := by
  induction db with
  | nil => simp [dbFind, hr]
  | cons q rest ih =>
      by_cases hq : q.guild_id = gid
      · simp [dbFind, hq] at h
      · simp only [dbFind, if_neg hq] at h
        simpa [dbFind, hq] using ih h

lemma dbFind_of_dbSelect_nil (db : List Row) (gid : Nat)
    (h : dbSelect db gid = []) : dbFind db gid = none := by
  induction db with
  | nil => simp [dbFind]
  | cons r rest ih =>
      by_cases hr : r.guild_id = gid
      · simp [dbSelect, hr] at h
      · simp only [dbSelect, if_neg hr] at h
        simp [dbFind, hr, ih h]

lemma dbSelect_dbDelete_self (db : List Row) (gid : Nat) :
    dbSelect (dbDelete db gid) gid = [] := by
  induction db with
  | nil => simp [dbSelect, dbDelete]
  | cons r rest ih =>
      by_cases hr : r.guild_id = gid
      · simp [dbDelete, hr, ih]
      · simp [dbSelect, dbDelete, hr, ih]

lemma dbFind_dbDelete_self (db : List Row) (gid : Nat) :
    dbFind (dbDelete db gid) gid = none :=
  dbFind_of_dbSelect_nil _ _ (dbSelect_dbDelete_self db gid)

lemma dbDelete_of_none (db : List Row) (gid : Nat)
    (h : dbFind db gid = none) : dbDelete db gid = db := by
  induction db with
  | nil => simp [dbDelete]
  | cons r rest ih =>
      by_cases hr : r.guild_id = gid
      · simp [dbFind, hr] at h
      · simp only [dbFind, if_neg hr] at h
        simp [dbDelete, hr, ih h]

lemma dbFind_dbUpdateWith_self (db : List Row) (gid : Nat) (f : Row → Row)
    (hf : ∀ r, (f r).guild_id = r.guild_id) :
    dbFind (dbUpdateWith db gid f) gid = Option.map f (dbFind db gid) := by
  induction db with
  | nil => simp [dbFind, dbUpdateWith]
  | cons r rest ih =>
      by_cases hr : r.guild_id = gid
      · have : (f r).guild_id = gid := by rw [hf r, hr]
        simp [dbFind, dbUpdateWith, hr, this]
      · have : ¬ r.guild_id = gid := hr
        simp [dbFind, dbUpdateWith, hr, ih]

lemma dbFind_dbUpdateWith_ne (db : List Row) (gid gid' : Nat) (f : Row → Row)
    (hf : ∀ r, (f r).guild_id = r.guild_id) (h : ¬ gid' = gid) :
    dbFind (dbUpdateWith db gid f) gid' = dbFind db gid' := by
  induction db with
  | nil => simp [dbFind, dbUpdateWith]
  | cons r rest ih =>
      by_cases hr : r.guild_id = gid
      · have h1 : ¬ (f r).guild_id = gid' := by
          rw [hf r, hr]
          intro hc
          exact h hc.symm
        have h2 : ¬ r.guild_id = gid' := by
          rw [hr]
          intro hc
          exact h hc.symm
        have h3 : ¬ gid = gid' := fun hc => h hc.symm
        simp [dbFind, dbUpdateWith, hr, h1, h2, h3, ih]
      · simp [dbFind, dbUpdateWith, hr, ih]

lemma countInserts_append (t s : List Eff) :
    countInserts (t ++ s) = countInserts t + countInserts s := by
  simp [countInserts, List.filter_append]

lemma setGeneric_ok_spec (rowUpd : Row → Row) (stUpd : WelcomeStorage → WelcomeStorage)
    (field : String) (m m' : WelcomeModel) (g : Guild)
    (h : WelcomeModel.setGeneric rowUpd stUpd field false m g = (m', Except.ok ())) :
    ∃ w, dictGet m.cache g = some w
      ∧ m' = { db := dbUpdateWith m.db g.id rowUpd
               cache := dictSet m.cache g (stUpd w)
               trace := m.trace ++ [Eff.update g.id field] } := by
  unfold WelcomeModel.setGeneric at h
  rcases hg : dictGet m.cache g with _ | w
  · rw [hg] at h
    simp at h
  · rw [hg] at h
    simp only [Bool.false_eq_true, if_false, Prod.mk.injEq] at h
    exact ⟨w, rfl, h.1.symm⟩

lemma setGeneric_keyError_spec (rowUpd : Row → Row) (stUpd : WelcomeStorage → WelcomeStorage)
    (field : String) (m : WelcomeModel) (g : Guild)
    (h : dictGet m.cache g = none) :
    WelcomeModel.setGeneric rowUpd stUpd field false m g
      = ({ m with
            db := dbUpdateWith m.db g.id rowUpd
            trace := m.trace ++ [Eff.update g.id field] },
         Except.error Err.keyError) := by
  unfold WelcomeModel.setGeneric
  rw [h]
  simp

lemma setGeneric_fail (rowUpd : Row → Row) (stUpd : WelcomeStorage → WelcomeStorage)
    (field : String) (m : WelcomeModel) (g : Guild) :
    WelcomeModel.setGeneric rowUpd stUpd field true m g = (m, Except.error Err.storageError) :=
  rfl

lemma get_welcome_cached (fail : Bool) (m : WelcomeModel) (g : Guild) (w : WelcomeStorage)
    (h : dictGet m.cache g = some w) :
    WelcomeModel.get_welcome fail m g = (m, Except.ok w) := by
  unfold WelcomeModel.get_welcome
  rw [h]

lemma get_fresh (m : WelcomeModel) (g : Guild)
    (hc : dictGet m.cache g = none) (hd : dbSelect m.db g.id = []) :
    WelcomeModel.get_welcome false m g
      = ({ db := m.db ++ [defaultRow g]
           cache := dictSet m.cache g (defaultStorage g)
           trace := m.trace ++ [Eff.selectW g.id, Eff.insert (defaultRow g)] },
         Except.ok (defaultStorage g)) := by
  have hf : dbFind m.db g.id = none := dbFind_of_dbSelect_nil _ _ hd
  unfold WelcomeModel.get_welcome WelcomeModel.add_welcome
  rw [hc, hd]
  simp only [Bool.false_eq_true, if_false]
  rw [show (Option.map Channel.name (WelcomeStorage.init g none none none true none).welcome_channel) = none from rfl]
  simp only [hf]
  rw [dictGet_dictSet_self]
  simp [defaultRow, defaultStorage, WelcomeStorage.init, WelcomeStorage.welcome_channel_id,
    discordUtilsGet]

lemma set_welcome_channel_ok (fail : Bool) (m m' : WelcomeModel) (g : Guild) (ch : Option Channel)
    (h : WelcomeModel.set_welcome_channel fail m g ch = (m', Except.ok ())) :
    WelcomeModel.setGeneric (fun r => { r with welcome_channel_id := Option.map Channel.id ch })
      (fun w => { w with welcome_channel := ch }) "welcome_channel_id" fail m g
      = (m', Except.ok ()) := by
  unfold WelcomeModel.set_welcome_channel at h
  rcases ch with _ | c
  · exact h
  · dsimp only at h
    by_cases hc : c.guild_id = g.id
    · rw [if_pos hc] at h
      exact h
    · rw [if_neg hc] at h
      simp at h

lemma setGeneric_read (rowUpd : Row → Row) (stUpd : WelcomeStorage → WelcomeStorage)
    (field : String) (m m' : WelcomeModel) (g : Guild)
    (h : WelcomeModel.setGeneric rowUpd stUpd field false m g = (m', Except.ok ()))
    {α : Type} (getF : WelcomeStorage → α) (v : α) (hS : ∀ w, getF (stUpd w) = v) :
    Except.map getF (WelcomeModel.get_welcome false m' g).2 = Except.ok v := by
  obtain ⟨w, hw, hm'⟩ := setGeneric_ok_spec _ _ _ _ _ _ h
  have hc : dictGet m'.cache g = some (stUpd w) := by
    rw [hm']
    exact dictGet_dictSet_self _ _ _
  rw [get_welcome_cached false m' g (stUpd w) hc]
  simp [Except.map, hS]

lemma setGeneric_frame (rowUpd : Row → Row) (stUpd : WelcomeStorage → WelcomeStorage)
    (field : String) (m m' : WelcomeModel) (g : Guild)
    (h : WelcomeModel.setGeneric rowUpd stUpd field false m g = (m', Except.ok ()))
    {α β : Type} (projS : WelcomeStorage → α) (projR : Row → β)
    (hS : ∀ w, projS (stUpd w) = projS w)
    (hR : ∀ r, projR (rowUpd r) = projR r)
    (hrow : ∀ r, (rowUpd r).guild_id = r.guild_id) :
    Option.map projS (dictGet m'.cache g) = Option.map projS (dictGet m.cache g)
  ∧ Option.map projR (dbFind m'.db g.id) = Option.map projR (dbFind m.db g.id)
  ∧ (∀ g' : Guild, ¬ g'.id = g.id → dictGet m'.cache g' = dictGet m.cache g')
  ∧ (∀ gid : Nat, ¬ gid = g.id → dbFind m'.db gid = dbFind m.db gid) := by
  obtain ⟨w, hw, hm'⟩ := setGeneric_ok_spec _ _ _ _ _ _ h
  subst hm'
  refine ⟨?_, ?_, ?_, ?_⟩
  · simp [dictGet_dictSet_self, hw, hS]
  · simp only [dbFind_dbUpdateWith_self _ _ _ hrow]
    cases dbFind m.db g.id <;> simp [hR]
  · intro g' hg'
    exact dictGet_dictSet_ne _ _ _ _ hg'
  · intro gid hgid
    exact dbFind_dbUpdateWith_ne _ _ _ _ hrow hgid

/-- C1: for every scope and every mutable field (`welcome_message`,
`goodbye_message`, `agreed_message`, `delete_on_agree`,
`welcome_channel`), whenever the setter for that field returns normally,
a subsequent `get_welcome` in the same process returns a record whose
field equals the value just written (read-your-writes). -/
theorem c1_read_your_writes (m : WelcomeModel) (g : Guild) :
    (∀ (v : Option String) (m' : WelcomeModel),
        WelcomeModel.set_welcome_message false m g v = (m', Except.ok ()) →
        Except.map WelcomeStorage.welcome_message (WelcomeModel.get_welcome false m' g).2
          = Except.ok v)
  ∧ (∀ (v : Option String) (m' : WelcomeModel),
        WelcomeModel.set_goodbye_message false m g v = (m', Except.ok ()) →
        Except.map WelcomeStorage.goodbye_message (WelcomeModel.get_welcome false m' g).2
          = Except.ok v)
  ∧ (∀ (v : Option String) (m' : WelcomeModel),
        WelcomeModel.set_agreed_message false m g v = (m', Except.ok ()) →
        Except.map WelcomeStorage.agreed_message (WelcomeModel.get_welcome false m' g).2
          = Except.ok v)
  ∧ (∀ (v : Bool) (m' : WelcomeModel),
        WelcomeModel.set_delete_on_agree false m g v = (m', Except.ok ()) →
        Except.map WelcomeStorage.delete_on_agree (WelcomeModel.get_welcome false m' g).2
          = Except.ok v)
  ∧ (∀ (ch : Option Channel) (m' : WelcomeModel),
        WelcomeModel.set_welcome_channel false m g ch = (m', Except.ok ()) →
        Except.map WelcomeStorage.welcome_channel (WelcomeModel.get_welcome false m' g).2
          = Except.ok ch) := by
  refine ⟨?_, ?_, ?_, ?_, ?_⟩
  · intro v m' h
    unfold WelcomeModel.set_welcome_message at h
    exact setGeneric_read _ _ _ _ _ _ h _ v (fun w => rfl)
  · intro v m' h
    unfold WelcomeModel.set_goodbye_message at h
    exact setGeneric_read _ _ _ _ _ _ h _ v (fun w => rfl)
  · intro v m' h
    unfold WelcomeModel.set_agreed_message at h
    exact setGeneric_read _ _ _ _ _ _ h _ v (fun w => rfl)
  · intro v m' h
    unfold WelcomeModel.set_delete_on_agree at h
    exact setGeneric_read _ _ _ _ _ _ h _ v (fun w => rfl)
  · intro ch m' h
    exact setGeneric_read _ _ _ _ _ _ (set_welcome_channel_ok _ _ _ _ _ h) _ ch (fun w => rfl)

/-- C1 witness: a concrete read-your-writes run on guild `g0`. -/
theorem c1_read_your_writes_witness :
    Except.map WelcomeStorage.welcome_message
      (WelcomeModel.get_welcome false
        (WelcomeModel.set_welcome_message false mCached g0 (some "hi")).1 g0).2
      = Except.ok (some "hi") :=
  (c1_read_your_writes mCached g0).1 (some "hi")
    (WelcomeModel.set_welcome_message false mCached g0 (some "hi")).1 (by decide)

lemma add_welcome_eq (fail : Bool) (m : WelcomeModel) (g : Guild) :
    WelcomeModel.add_welcome fail m g
      = (if fail then (m, Except.error Err.storageError)
         else match dbFind m.db g.id with
           | some _ => (m, Except.error Err.duplicateScope)
           | none =>
               ({ db := m.db ++ [defaultRow g]
                  cache := dictSet m.cache g (defaultStorage g)
                  trace := m.trace ++ [Eff.insert (defaultRow g)] }, Except.ok none)) := rfl

/-- C2: on a scope with no cache entry and no backing row, `get_welcome`
returns the all-default record (all optional messages absent,
`delete_on_agree` true, no channel reference), performs exactly one
backing-store INSERT, and raises no not-found error. -/
theorem c2_fresh_default (m : WelcomeModel) (g : Guild)
    (hc : dictGet m.cache g = none) (hd : dbSelect m.db g.id = []) :
    (Except.map (fun w => (w.welcome_message, w.goodbye_message, w.agreed_message,
          w.delete_on_agree, w.welcome_channel))
        (WelcomeModel.get_welcome false m g).2
      = Except.ok (none, none, none, true, none))
  ∧ countInserts (WelcomeModel.get_welcome false m g).1.trace = countInserts m.trace + 1 := by
  rw [get_fresh m g hc hd]
  constructor
  · simp [Except.map, defaultStorage, WelcomeStorage.init, discordUtilsGet]
  · simp [countInserts_append, countInserts, Eff.isInsert]

/-- C2 witness: `get_welcome` on the empty store and guild `g0`. -/
theorem c2_fresh_default_witness :
    (Except.map (fun w => (w.welcome_message, w.goodbye_message, w.agreed_message,
          w.delete_on_agree, w.welcome_channel))
        (WelcomeModel.get_welcome false mEmpty g0).2
      = Except.ok (none, none, none, true, none))
  ∧ countInserts (WelcomeModel.get_welcome false mEmpty g0).1.trace
      = countInserts mEmpty.trace + 1 :=
  c2_fresh_default mEmpty g0 rfl rfl

/-- C3: a second `add_welcome` for the same scope without an intervening
`del_welcome` raises the duplicate-scope error (the INSERT violates the
primary-key constraint) and leaves the state produced by the first call
— cache entry and backing row included — completely unchanged. -/
theorem c3_duplicate_create (m m1 : WelcomeModel) (g : Guild) (r : Option WelcomeStorage)
    (h : WelcomeModel.add_welcome false m g = (m1, Except.ok r)) :
    WelcomeModel.add_welcome false m1 g = (m1, Except.error Err.duplicateScope) := by
  rw [add_welcome_eq] at h
  simp only [Bool.false_eq_true, if_false] at h
  rcases hf : dbFind m.db g.id with _ | r0
  · simp only [hf, Prod.mk.injEq] at h
    rw [add_welcome_eq]
    simp only [Bool.false_eq_true, if_false]
    have hfind : dbFind m1.db g.id = some (defaultRow g) := by
      rw [← h.1]
      exact dbFind_append_new _ _ _ hf rfl
    rw [hfind]
  · simp [hf] at h

/-- C3 witness: duplicate `add_welcome` for `g0` on the state created by
the first `add_welcome`. -/
theorem c3_duplicate_create_witness :
    WelcomeModel.add_welcome false mG0 g0 = (mG0, Except.error Err.duplicateScope) :=
  c3_duplicate_create mEmpty mG0 g0 none (by decide)

/-- C5: `del_welcome` followed by `get_welcome` behaves exactly like a
`get_welcome` on a never-seen scope: the returned record has all-default
fields and exactly one new backing-store INSERT is performed (remove is
a true reset, not a tombstone). -/
theorem c5_remove_is_reset (m : WelcomeModel) (g : Guild) :
    (Except.map (fun w => (w.welcome_message, w.goodbye_message, w.agreed_message,
          w.delete_on_agree, w.welcome_channel))
        (WelcomeModel.get_welcome false (WelcomeModel.del_welcome false m g).1 g).2
      = Except.ok (none, none, none, true, none))
  ∧ countInserts (WelcomeModel.get_welcome false (WelcomeModel.del_welcome false m g).1 g).1.trace
      = countInserts (WelcomeModel.del_welcome false m g).1.trace + 1 := by
  have hc : dictGet (WelcomeModel.del_welcome false m g).1.cache g = none := by
    show dictGet (dictPop m.cache g) g = none
    exact dictGet_dictPop_self _ _
  have hd : dbSelect (WelcomeModel.del_welcome false m g).1.db g.id = [] := by
    show dbSelect (dbDelete m.db g.id) g.id = []
    exact dbSelect_dbDelete_self _ _
  rw [get_fresh _ g hc hd]
  constructor
  · simp [Except.map, defaultStorage, WelcomeStorage.init, discordUtilsGet]
  · simp [countInserts_append, countInserts, Eff.isInsert]

/-- C6: when the backing-store write of a setter fails, the setter raises
the storage error and the state — the cached record for the scope in
particular — is exactly as before the call, so cache and store never
diverge. -/
theorem c6_store_failure (m : WelcomeModel) (g : Guild) :
    (∀ v : Option String, WelcomeModel.set_welcome_message true m g v
        = (m, Except.error Err.storageError))
  ∧ (∀ v : Option String, WelcomeModel.set_goodbye_message true m g v
        = (m, Except.error Err.storageError))
  ∧ (∀ v : Option String, WelcomeModel.set_agreed_message true m g v
        = (m, Except.error Err.storageError))
  ∧ (∀ v : Bool, WelcomeModel.set_delete_on_agree true m g v
        = (m, Except.error Err.storageError))
  ∧ (∀ ch : Option Channel, chanOk g ch = true →
        WelcomeModel.set_welcome_channel true m g ch
          = (m, Except.error Err.storageError)) := by
  refine ⟨fun v => rfl, fun v => rfl, fun v => rfl, fun v => rfl, ?_⟩
  intro ch hok
  rcases ch with _ | c
  · rfl
  · have hcg : c.guild_id = g.id := by
      simpa [chanOk] using hok
    unfold WelcomeModel.set_welcome_channel
    dsimp only
    rw [if_pos hcg]
    rfl

/-- C6 witness: a failing store write of the channel setter leaves the
concrete cached state `mCached` untouched. -/
theorem c6_store_failure_witness :
    WelcomeModel.set_welcome_channel true mCached g0 (some chan0)
      = (mCached, Except.error Err.storageError) :=
  (c6_store_failure mCached g0).2.2.2.2 (some chan0) (by decide)

/-- C9: `del_welcome` is idempotent — on a scope with no row and no cache
entry it raises no error and leaves table and cache unchanged, and a
second `del_welcome` leaves the table and cache exactly as after the
first. -/
theorem c9_remove_idempotent (m : WelcomeModel) (g : Guild) :
    ((WelcomeModel.del_welcome false (WelcomeModel.del_welcome false m g).1 g).1.db
        = (WelcomeModel.del_welcome false m g).1.db
      ∧ (WelcomeModel.del_welcome false (WelcomeModel.del_welcome false m g).1 g).1.cache
        = (WelcomeModel.del_welcome false m g).1.cache
      ∧ (WelcomeModel.del_welcome false (WelcomeModel.del_welcome false m g).1 g).2
        = Except.ok ())
  ∧ (dbFind m.db g.id = none → dictGet m.cache g = none →
      WelcomeModel.del_welcome false m g
        = ({ m with trace := m.trace ++ [Eff.delete g.id] }, Except.ok ())) := by
  constructor
  · refine ⟨?_, ?_, rfl⟩
    · show dbDelete (dbDelete m.db g.id) g.id = dbDelete m.db g.id
      exact dbDelete_of_none _ _ (dbFind_dbDelete_self _ _)
    · show dictPop (dictPop m.cache g) g = dictPop m.cache g
      exact dictPop_of_none _ _ (dictGet_dictPop_self _ _)
  · intro h1 h2
    unfold WelcomeModel.del_welcome
    simp only [Bool.false_eq_true, if_false]
    rw [dbDelete_of_none _ _ h1, dictPop_of_none _ _ h2]

/-- C9 witness: `del_welcome` on the empty store for `g0` is a no-op up
to the executed DELETE statement and raises no error. -/
theorem c9_remove_idempotent_witness :
    WelcomeModel.del_welcome false mEmpty g0
      = ({ mEmpty with trace := mEmpty.trace ++ [Eff.delete g0.id] }, Except.ok ()) :=
  (c9_remove_idempotent mEmpty g0).2 rfl rfl

/-- All fields of a cached record except `welcome_message`. -/
def WelcomeStorage.sansWelcomeMessage (w : WelcomeStorage) :
    Guild × Option String × Option String × Bool × Option Channel :=
  (w.guild, w.goodbye_message, w.agreed_message, w.delete_on_agree, w.welcome_channel)

/-- All fields of a cached record except `goodbye_message`. -/
def WelcomeStorage.sansGoodbyeMessage (w : WelcomeStorage) :
    Guild × Option String × Option String × Bool × Option Channel :=
  (w.guild, w.welcome_message, w.agreed_message, w.delete_on_agree, w.welcome_channel)

/-- All fields of a cached record except `agreed_message`. -/
def WelcomeStorage.sansAgreedMessage (w : WelcomeStorage) :
    Guild × Option String × Option String × Bool × Option Channel :=
  (w.guild, w.welcome_message, w.goodbye_message, w.delete_on_agree, w.welcome_channel)

/-- All fields of a cached record except `delete_on_agree`. -/
def WelcomeStorage.sansDeleteOnAgree (w : WelcomeStorage) :
    Guild × Option String × Option String × Option String × Option Channel :=
  (w.guild, w.welcome_message, w.goodbye_message, w.agreed_message, w.welcome_channel)

/-- All fields of a cached record except `welcome_channel`. -/
def WelcomeStorage.sansWelcomeChannel (w : WelcomeStorage) :
    Guild × Option String × Option String × Option String × Bool :=
  (w.guild, w.welcome_message, w.goodbye_message, w.agreed_message, w.delete_on_agree)

/-- All columns of a table row except `welcome_message`. -/
def Row.sansWelcomeMessage (r : Row) :
    Nat × Option String × Option String × Bool × Option Nat :=
  (r.guild_id, r.goodbye_message, r.agreed_message, r.delete_on_agree, r.welcome_channel_id)

/-- All columns of a table row except `goodbye_message`. -/
def Row.sansGoodbyeMessage (r : Row) :
    Nat × Option String × Option String × Bool × Option Nat :=
  (r.guild_id, r.welcome_message, r.agreed_message, r.delete_on_agree, r.welcome_channel_id)

/-- All columns of a table row except `agreed_message`. -/
def Row.sansAgreedMessage (r : Row) :
    Nat × Option String × Option String × Bool × Option Nat :=
  (r.guild_id, r.welcome_message, r.goodbye_message, r.delete_on_agree, r.welcome_channel_id)

/-- All columns of a table row except `delete_on_agree`. -/
def Row.sansDeleteOnAgree (r : Row) :
    Nat × Option String × Option String × Option String × Option Nat :=
  (r.guild_id, r.welcome_message, r.goodbye_message, r.agreed_message, r.welcome_channel_id)

/-- All columns of a table row except `welcome_channel_id`. -/
def Row.sansWelcomeChannelId (r : Row) :
    Nat × Option String × Option String × Option String × Bool :=
  (r.guild_id, r.welcome_message, r.goodbye_message, r.agreed_message, r.delete_on_agree)

/-- C7: a successful setter is a targeted single-field update — every
other field of the scope's cached record and of its table row keeps its
value, and the records and rows of every other scope are untouched. -/
theorem c7_targeted_update (m : WelcomeModel) (g : Guild) :
    (∀ (v : Option String) (m' : WelcomeModel),
        WelcomeModel.set_welcome_message false m g v = (m', Except.ok ()) →
          Option.map WelcomeStorage.sansWelcomeMessage (dictGet m'.cache g)
              = Option.map WelcomeStorage.sansWelcomeMessage (dictGet m.cache g)
          ∧ Option.map Row.sansWelcomeMessage (dbFind m'.db g.id)
              = Option.map Row.sansWelcomeMessage (dbFind m.db g.id)
          ∧ (∀ g' : Guild, ¬ g'.id = g.id → dictGet m'.cache g' = dictGet m.cache g')
          ∧ (∀ gid : Nat, ¬ gid = g.id → dbFind m'.db gid = dbFind m.db gid))
  ∧ (∀ (v : Option String) (m' : WelcomeModel),
        WelcomeModel.set_goodbye_message false m g v = (m', Except.ok ()) →
          Option.map WelcomeStorage.sansGoodbyeMessage (dictGet m'.cache g)
              = Option.map WelcomeStorage.sansGoodbyeMessage (dictGet m.cache g)
          ∧ Option.map Row.sansGoodbyeMessage (dbFind m'.db g.id)
              = Option.map Row.sansGoodbyeMessage (dbFind m.db g.id)
          ∧ (∀ g' : Guild, ¬ g'.id = g.id → dictGet m'.cache g' = dictGet m.cache g')
          ∧ (∀ gid : Nat, ¬ gid = g.id → dbFind m'.db gid = dbFind m.db gid))
  ∧ (∀ (v : Option String) (m' : WelcomeModel),
        WelcomeModel.set_agreed_message false m g v = (m', Except.ok ()) →
          Option.map WelcomeStorage.sansAgreedMessage (dictGet m'.cache g)
              = Option.map WelcomeStorage.sansAgreedMessage (dictGet m.cache g)
          ∧ Option.map Row.sansAgreedMessage (dbFind m'.db g.id)
              = Option.map Row.sansAgreedMessage (dbFind m.db g.id)
          ∧ (∀ g' : Guild, ¬ g'.id = g.id → dictGet m'.cache g' = dictGet m.cache g')
          ∧ (∀ gid : Nat, ¬ gid = g.id → dbFind m'.db gid = dbFind m.db gid))
  ∧ (∀ (v : Bool) (m' : WelcomeModel),
        WelcomeModel.set_delete_on_agree false m g v = (m', Except.ok ()) →
          Option.map WelcomeStorage.sansDeleteOnAgree (dictGet m'.cache g)
              = Option.map WelcomeStorage.sansDeleteOnAgree (dictGet m.cache g)
          ∧ Option.map Row.sansDeleteOnAgree (dbFind m'.db g.id)
              = Option.map Row.sansDeleteOnAgree (dbFind m.db g.id)
          ∧ (∀ g' : Guild, ¬ g'.id = g.id → dictGet m'.cache g' = dictGet m.cache g')
          ∧ (∀ gid : Nat, ¬ gid = g.id → dbFind m'.db gid = dbFind m.db gid))
  ∧ (∀ (ch : Option Channel) (m' : WelcomeModel),
        WelcomeModel.set_welcome_channel false m g ch = (m', Except.ok ()) →
          Option.map WelcomeStorage.sansWelcomeChannel (dictGet m'.cache g)
              = Option.map WelcomeStorage.sansWelcomeChannel (dictGet m.cache g)
          ∧ Option.map Row.sansWelcomeChannelId (dbFind m'.db g.id)
              = Option.map Row.sansWelcomeChannelId (dbFind m.db g.id)
          ∧ (∀ g' : Guild, ¬ g'.id = g.id → dictGet m'.cache g' = dictGet m.cache g')
          ∧ (∀ gid : Nat, ¬ gid = g.id → dbFind m'.db gid = dbFind m.db gid)) := by
  refine ⟨?_, ?_, ?_, ?_, ?_⟩
  · intro v m' h
    unfold WelcomeModel.set_welcome_message at h
    exact setGeneric_frame _ _ _ _ _ _ h _ _ (fun w => rfl) (fun r => rfl) (fun r => rfl)
  · intro v m' h
    unfold WelcomeModel.set_goodbye_message at h
    exact setGeneric_frame _ _ _ _ _ _ h _ _ (fun w => rfl) (fun r => rfl) (fun r => rfl)
  · intro v m' h
    unfold WelcomeModel.set_agreed_message at h
    exact setGeneric_frame _ _ _ _ _ _ h _ _ (fun w => rfl) (fun r => rfl) (fun r => rfl)
  · intro v m' h
    unfold WelcomeModel.set_delete_on_agree at h
    exact setGeneric_frame _ _ _ _ _ _ h _ _ (fun w => rfl) (fun r => rfl) (fun r => rfl)
  · intro ch m' h
    exact setGeneric_frame _ _ _ _ _ _ (set_welcome_channel_ok _ _ _ _ _ h) _ _
      (fun w => rfl) (fun r => rfl) (fun r => rfl)

/-- C7 witness: a concrete successful write of `welcome_message` on `g0`
leaves the other cached fields of `g0` unchanged. -/
theorem c7_targeted_update_witness :
    Option.map WelcomeStorage.sansWelcomeMessage
        (dictGet (WelcomeModel.set_welcome_message false mCached g0 (some "hi")).1.cache g0)
      = Option.map WelcomeStorage.sansWelcomeMessage (dictGet mCached.cache g0) :=
  ((c7_targeted_update mCached g0).1 (some "hi")
    (WelcomeModel.set_welcome_message false mCached g0 (some "hi")).1 (by decide)).1

/-- C8 counterexample: `add_welcome` has no `return` statement — on a
fresh scope it returns Python's `None`, not the freshly created record,
so "returns that record to the caller" fails at `mEmpty`, `g0`. -/
theorem c8_counterexample :
    (WelcomeModel.add_welcome false mEmpty g0).2 = Except.ok none
  ∧ ¬ (WelcomeModel.add_welcome false mEmpty g0).2
        = Except.ok (some (defaultStorage g0)) :=
  ⟨by decide, by decide⟩

/-- C8 (amended): on a scope with no existing row, `add_welcome`
constructs the default record, inserts the matching all-default row into
the backing store and the record into the cache keyed by the scope, and
returns `None` (not the record; callers reach the record through the
cache). -/
theorem c8_create_amended (m : WelcomeModel) (g : Guild)
    (h : dbFind m.db g.id = none) :
    WelcomeModel.add_welcome false m g
      = ({ db := m.db ++ [defaultRow g]
           cache := dictSet m.cache g (defaultStorage g)
           trace := m.trace ++ [Eff.insert (defaultRow g)] }, Except.ok none)
  ∧ dictGet (WelcomeModel.add_welcome false m g).1.cache g = some (defaultStorage g)
  ∧ dbFind (WelcomeModel.add_welcome false m g).1.db g.id = some (defaultRow g) := by
  have e : WelcomeModel.add_welcome false m g
      = ({ db := m.db ++ [defaultRow g]
           cache := dictSet m.cache g (defaultStorage g)
           trace := m.trace ++ [Eff.insert (defaultRow g)] }, Except.ok none) := by
    rw [add_welcome_eq]
    simp [h]
  refine ⟨e, ?_, ?_⟩
  · rw [e]
    exact dictGet_dictSet_self _ _ _
  · rw [e]
    exact dbFind_append_new _ _ _ h rfl

/-- C8 (amended) witness: the concrete creation run on `mEmpty`, `g0`. -/
theorem c8_create_amended_witness :
    dictGet (WelcomeModel.add_welcome false mEmpty g0).1.cache g0
      = some (defaultStorage g0) :=
  (c8_create_amended mEmpty g0 rfl).2.1

lemma setGeneric_keyError_parts (rowUpd : Row → Row) (stUpd : WelcomeStorage → WelcomeStorage)
    (field : String) (m : WelcomeModel) (g : Guild)
    (h : dictGet m.cache g = none) (hrow : ∀ r, (rowUpd r).guild_id = r.guild_id) :
    (WelcomeModel.setGeneric rowUpd stUpd field false m g).2 = Except.error Err.keyError
  ∧ (WelcomeModel.setGeneric rowUpd stUpd field false m g).1.cache = m.cache
  ∧ dbFind (WelcomeModel.setGeneric rowUpd stUpd field false m g).1.db g.id
      = Option.map rowUpd (dbFind m.db g.id) := by
  rw [setGeneric_keyError_spec _ _ _ _ _ h]
  refine ⟨rfl, rfl, ?_⟩
  exact dbFind_dbUpdateWith_self _ _ _ hrow

/-- C10: a setter called for a scope with no cache entry (for example a
row exists in the table but was never loaded) first executes the UPDATE
against the backing store and then raises `KeyError` from
`self.cache[guild]`: the table write is applied and not rolled back,
while the cache still has no entry for the scope. -/
theorem c10_update_then_keyerror (m : WelcomeModel) (g : Guild)
    (h : dictGet m.cache g = none) :
    (∀ v : Option String,
        (WelcomeModel.set_welcome_message false m g v).2 = Except.error Err.keyError
      ∧ (WelcomeModel.set_welcome_message false m g v).1.cache = m.cache
      ∧ dbFind (WelcomeModel.set_welcome_message false m g v).1.db g.id
          = Option.map (fun r => { r with welcome_message := v }) (dbFind m.db g.id))
  ∧ (∀ v : Option String,
        (WelcomeModel.set_goodbye_message false m g v).2 = Except.error Err.keyError
      ∧ (WelcomeModel.set_goodbye_message false m g v).1.cache = m.cache
      ∧ dbFind (WelcomeModel.set_goodbye_message false m g v).1.db g.id
          = Option.map (fun r => { r with goodbye_message := v }) (dbFind m.db g.id))
  ∧ (∀ v : Option String,
        (WelcomeModel.set_agreed_message false m g v).2 = Except.error Err.keyError
      ∧ (WelcomeModel.set_agreed_message false m g v).1.cache = m.cache
      ∧ dbFind (WelcomeModel.set_agreed_message false m g v).1.db g.id
          = Option.map (fun r => { r with agreed_message := v }) (dbFind m.db g.id))
  ∧ (∀ v : Bool,
        (WelcomeModel.set_delete_on_agree false m g v).2 = Except.error Err.keyError
      ∧ (WelcomeModel.set_delete_on_agree false m g v).1.cache = m.cache
      ∧ dbFind (WelcomeModel.set_delete_on_agree false m g v).1.db g.id
          = Option.map (fun r => { r with delete_on_agree := v }) (dbFind m.db g.id))
  ∧ (∀ ch : Option Channel, chanOk g ch = true →
        (WelcomeModel.set_welcome_channel false m g ch).2 = Except.error Err.keyError
      ∧ (WelcomeModel.set_welcome_channel false m g ch).1.cache = m.cache
      ∧ dbFind (WelcomeModel.set_welcome_channel false m g ch).1.db g.id
          = Option.map (fun r => { r with welcome_channel_id := Option.map Channel.id ch })
              (dbFind m.db g.id)) := by
  refine ⟨?_, ?_, ?_, ?_, ?_⟩
  · intro v
    unfold WelcomeModel.set_welcome_message
    exact setGeneric_keyError_parts _ _ _ _ _ h (fun r => rfl)
  · intro v
    unfold WelcomeModel.set_goodbye_message
    exact setGeneric_keyError_parts _ _ _ _ _ h (fun r => rfl)
  · intro v
    unfold WelcomeModel.set_agreed_message
    exact setGeneric_keyError_parts _ _ _ _ _ h (fun r => rfl)
  · intro v
    unfold WelcomeModel.set_delete_on_agree
    exact setGeneric_keyError_parts _ _ _ _ _ h (fun r => rfl)
  · intro ch hok
    unfold WelcomeModel.set_welcome_channel
    rcases ch with _ | c
    · exact setGeneric_keyError_parts _ _ _ _ _ h (fun r => rfl)
    · have hcg : c.guild_id = g.id := by
        simpa [chanOk] using hok
      dsimp only
      rw [if_pos hcg]
      exact setGeneric_keyError_parts _ _ _ _ _ h (fun r => rfl)

/-- C10 witness: setting `welcome_message` on `mRowOnly` (row present,
cache empty) applies the UPDATE to the row and raises `KeyError`. -/
theorem c10_update_then_keyerror_witness :
    (WelcomeModel.set_welcome_message false mRowOnly g0 (some "x")).2
        = Except.error Err.keyError
  ∧ (WelcomeModel.set_welcome_message false mRowOnly g0 (some "x")).1.cache = mRowOnly.cache
  ∧ dbFind (WelcomeModel.set_welcome_message false mRowOnly g0 (some "x")).1.db g0.id
      = Option.map (fun r => { r with welcome_message := some "x" })
          (dbFind mRowOnly.db g0.id) :=
  (c10_update_then_keyerror mRowOnly g0 rfl).1 (some "x")

/-- The channel-reference invariant of the cache: each cached record's
`welcome_channel`, when non-null, belongs to the guild its cache entry
is keyed by. -/
def channelInv (m : WelcomeModel) : Prop :=
  ∀ p ∈ m.cache, ∀ c, p.2.welcome_channel = some c → c.guild_id = p.1.id

/-- A guild is well formed when each of its text channels points back to
it (always true of discord objects). -/
def guildWF (g : Guild) : Prop :=
  ∀ c ∈ g.text_channels, c.guild_id = g.id

lemma discordUtilsGet_mem (chans : List Channel) (cid : Option Nat) (c : Channel)
    (h : discordUtilsGet chans cid = some c) : c ∈ chans := by
  rcases cid with _ | i
  · simp [discordUtilsGet] at h
  · exact List.mem_of_find?_eq_some h

lemma cacheInv_dictSet (L : List (Guild × WelcomeStorage)) (g : Guild) (v : WelcomeStorage)
    (hm : ∀ p ∈ L, ∀ c, p.2.welcome_channel = some c → c.guild_id = p.1.id)
    (hv : ∀ c, v.welcome_channel = some c → c.guild_id = g.id) :
    ∀ p ∈ dictSet L g v, ∀ c, p.2.welcome_channel = some c → c.guild_id = p.1.id := by
  intro p hp c hc
  rcases mem_dictSet L g v p hp with ⟨h1, h2⟩ | h1
  · rw [h2]
    exact hv c (by rw [← h1]; exact hc)
  · exact hm p h1 c hc

lemma setGeneric_some (rowUpd : Row → Row) (stUpd : WelcomeStorage → WelcomeStorage)
    (field : String) (m : WelcomeModel) (g : Guild) (w : WelcomeStorage)
    (hg : dictGet m.cache g = some w) :
    WelcomeModel.setGeneric rowUpd stUpd field false m g
      = ({ db := dbUpdateWith m.db g.id rowUpd
           cache := dictSet m.cache g (stUpd w)
           trace := m.trace ++ [Eff.update g.id field] }, Except.ok ()) := by
  unfold WelcomeModel.setGeneric
  rw [hg]
  simp

lemma channelInv_setGeneric (rowUpd : Row → Row) (stUpd : WelcomeStorage → WelcomeStorage)
    (field : String) (fail : Bool) (m : WelcomeModel) (g : Guild)
    (hst : ∀ w c, (stUpd w).welcome_channel = some c →
        w.welcome_channel = some c ∨ c.guild_id = g.id)
    (hm : channelInv m) :
    channelInv (WelcomeModel.setGeneric rowUpd stUpd field fail m g).1 := by
  cases fail with
  | true => exact hm
  | false =>
      rcases hg : dictGet m.cache g with _ | w
      · rw [setGeneric_keyError_spec _ _ _ _ _ hg]
        exact fun p hp c hc => hm p hp c hc
      · rw [setGeneric_some _ _ _ _ _ _ hg]
        obtain ⟨p0, hp0, hw, hid⟩ := dictGet_mem _ _ _ hg
        refine cacheInv_dictSet _ _ _ hm ?_
        intro c hc
        rcases hst w c hc with h1 | h1
        · rw [← hid]
          exact hm p0 hp0 c (by rw [hw]; exact h1)
        · exact h1

lemma channelInv_set_welcome_channel (fail : Bool) (m : WelcomeModel) (g : Guild)
    (ch : Option Channel) (hm : channelInv m) :
    channelInv (WelcomeModel.set_welcome_channel fail m g ch).1 := by
  unfold WelcomeModel.set_welcome_channel
  rcases ch with _ | c
  · exact channelInv_setGeneric _ _ _ _ _ _ (fun w c0 h => by simp at h) hm
  · dsimp only
    by_cases hcg : c.guild_id = g.id
    · rw [if_pos hcg]
      refine channelInv_setGeneric _ _ _ _ _ _ ?_ hm
      intro w c0 h
      refine Or.inr ?_
      have h2 : c = c0 := by simpa using h
      rw [← h2]
      exact hcg
    · rw [if_neg hcg]
      exact hm

lemma channelInv_add_welcome (fail : Bool) (m : WelcomeModel) (g : Guild)
    (hm : channelInv m) : channelInv (WelcomeModel.add_welcome fail m g).1 := by
  rw [add_welcome_eq]
  cases fail with
  | true => exact hm
  | false =>
      rcases hf : dbFind m.db g.id with _ | r0
      · simp only [hf, Bool.false_eq_true, if_false]
        refine cacheInv_dictSet _ _ _ hm ?_
        intro c hc
        simp [defaultStorage, WelcomeStorage.init, discordUtilsGet] at hc
      · simp only [hf, Bool.false_eq_true, if_false]
        exact hm

lemma channelInv_del_welcome (fail : Bool) (m : WelcomeModel) (g : Guild)
    (hm : channelInv m) : channelInv (WelcomeModel.del_welcome fail m g).1 := by
  cases fail with
  | true => exact hm
  | false =>
      intro p hp c hc
      exact hm p (mem_dictPop m.cache g p hp) c hc

lemma get_welcome_fail_state (m : WelcomeModel) (g : Guild) :
    (WelcomeModel.get_welcome true m g).1 = m := by
  unfold WelcomeModel.get_welcome
  rcases hc : dictGet m.cache g with _ | w <;> simp [hc]

lemma get_load (m : WelcomeModel) (g : Guild) (r : Row) (rest : List Row)
    (hc : dictGet m.cache g = none) (hd : dbSelect m.db g.id = r :: rest) :
    WelcomeModel.get_welcome false m g
      = ({ m with
            cache := dictSet m.cache g
              (WelcomeStorage.init g r.welcome_message r.goodbye_message r.agreed_message
                r.delete_on_agree r.welcome_channel_id)
            trace := m.trace ++ [Eff.selectW g.id] },
         Except.ok (WelcomeStorage.init g r.welcome_message r.goodbye_message
            r.agreed_message r.delete_on_agree r.welcome_channel_id)) := by
  unfold WelcomeModel.get_welcome
  rw [hc]
  simp [hd]

lemma channelInv_get_welcome (fail : Bool) (m : WelcomeModel) (g : Guild)
    (hm : channelInv m) (hwf : guildWF g) :
    channelInv (WelcomeModel.get_welcome fail m g).1 := by
  cases fail with
  | true =>
      rw [get_welcome_fail_state]
      exact hm
  | false =>
      rcases hc : dictGet m.cache g with _ | w
      · rcases hd : dbSelect m.db g.id with _ | ⟨r, rest⟩
        · rw [get_fresh m g hc hd]
          refine cacheInv_dictSet _ _ _ hm ?_
          intro c hcc
          simp [defaultStorage, WelcomeStorage.init, discordUtilsGet] at hcc
        · rw [get_load m g r rest hc hd]
          refine cacheInv_dictSet _ _ _ hm ?_
          intro c hcc
          refine hwf c (discordUtilsGet_mem g.text_channels r.welcome_channel_id c ?_)
          simpa [WelcomeStorage.init] using hcc
      · rw [get_welcome_cached false m g w hc]
        exact hm

/-- C4: setting the welcome channel to a channel of a different guild
fails the `assert guild == channel.guild` with the invalid-reference
error before anything is written, leaving cache and backing store (the
stored channel value in particular) entirely unchanged; and every
operation of the model preserves the invariant that a cached record's
non-null `welcome_channel` belongs to the guild of its cache entry. -/
theorem c4_channel_scope (m : WelcomeModel) (g : Guild) (fail : Bool) :
    (∀ c : Channel, ¬ c.guild_id = g.id →
        WelcomeModel.set_welcome_channel fail m g (some c)
          = (m, Except.error Err.invalidReference))
  ∧ (∀ ch : Option Channel, channelInv m →
        channelInv (WelcomeModel.set_welcome_channel fail m g ch).1)
  ∧ (channelInv m → channelInv (WelcomeModel.add_welcome fail m g).1)
  ∧ (channelInv m → channelInv (WelcomeModel.del_welcome fail m g).1)
  ∧ (channelInv m → guildWF g → channelInv (WelcomeModel.get_welcome fail m g).1)
  ∧ (∀ v : Option String, channelInv m →
        channelInv (WelcomeModel.set_welcome_message fail m g v).1)
  ∧ (∀ v : Option String, channelInv m →
        channelInv (WelcomeModel.set_goodbye_message fail m g v).1)
  ∧ (∀ v : Option String, channelInv m →
        channelInv (WelcomeModel.set_agreed_message fail m g v).1)
  ∧ (∀ v : Bool, channelInv m →
        channelInv (WelcomeModel.set_delete_on_agree fail m g v).1) := by
  refine ⟨?_, ?_, ?_, ?_, ?_, ?_, ?_, ?_, ?_⟩
  · intro c hcg
    unfold WelcomeModel.set_welcome_channel
    dsimp only
    rw [if_neg hcg]
  · intro ch hm
    exact channelInv_set_welcome_channel _ _ _ _ hm
  · intro hm
    exact channelInv_add_welcome _ _ _ hm
  · intro hm
    exact channelInv_del_welcome _ _ _ hm
  · intro hm hwf
    exact channelInv_get_welcome _ _ _ hm hwf
  · intro v hm
    exact channelInv_setGeneric _ _ _ _ _ _ (fun w c h => Or.inl h) hm
  · intro v hm
    exact channelInv_setGeneric _ _ _ _ _ _ (fun w c h => Or.inl h) hm
  · intro v hm
    exact channelInv_setGeneric _ _ _ _ _ _ (fun w c h => Or.inl h) hm
  · intro v hm
    exact channelInv_setGeneric _ _ _ _ _ _ (fun w c h => Or.inl h) hm

/-- C4 witness: setting the channel of guild 2 as welcome channel of
`g0` (guild 1) on the concrete cached state raises the
invalid-reference error and leaves the state unchanged. -/
theorem c4_channel_scope_witness :
    WelcomeModel.set_welcome_channel false mCached g0 (some chanOther)
      = (mCached, Except.error Err.invalidReference) :=
  (c4_channel_scope mCached g0 false).1 chanOther (by decide)
